import Mathlib

/-!
Shallow embedding of the relationship domain core (edge and hyperedge
aggregates, quality space, value objects) together with theorems checking
the natural-language specification against it.

Modelling conventions:
- timestamps (chrono DateTime<Utc>) are integers counting days, so that
  the num_days arithmetic of the source is plain integer subtraction;
- UUIDs and opaque collaborator identifiers (RelationshipId, ConceptId,
  MessageIdentity) are natural numbers;
- f64 values are rationals, except where the source takes a square root,
  where real numbers are used;
- HashMap<String, V> is an association list with insert-replaces-key
  semantics; equality of aggregates compares these lists;
- methods taking &mut self and returning Result<(), String> become
  functions returning the pair (Except String Unit, new state), so that a
  failed call still reports the state the Rust value is left in;
- calls to Utc::now() become an explicit now argument;
- a Rust panic (string slicing out of bounds in the EntityRef Display
  implementation) is modelled by an Option-valued function returning none.
-/

-- ============================================================================
-- Basic identifier and time types
-- ============================================================================

/-- Days-resolution instant standing for chrono DateTime<Utc>. -/
abbrev Time := Int

/-- Opaque UUID model. -/
abbrev Uuid := Nat

/-- Opaque RelationshipId model (phantom parameters erased). -/
abbrev RelationshipId := Nat

/-- Opaque ConceptId model from the conceptual-space collaborator. -/
abbrev ConceptId := Nat

/-- Opaque MessageIdentity model carried by commands and events. -/
abbrev MessageIdentity := Nat

-- ============================================================================
-- EntityRef (value_objects/mod.rs)
-- ============================================================================

/-- Type of entity being referenced (value_objects/mod.rs, EntityType). -/
inductive EntityType where
  | Person
  | Organization
  | Location
  | Agent
  | Policy
  | Concept
  | Relationship
  | Custom (name : String)
deriving DecidableEq

/-- NATS subject head for an entity type (EntityType::nats_subject_prefix). -/
def EntityType.nats_subject_name : EntityType → String
  | .Person => "person"
  | .Organization => "organization"
  | .Location => "location"
  | .Agent => "agent"
  | .Policy => "policy"
  | .Concept => "concept"
  | .Relationship => "relationship"
  | .Custom _ => "custom"

/-- Content-addressed reference to a domain entity (value_objects/mod.rs). -/
structure EntityRef where
  entity_type : EntityType
  entity_id : Uuid
  cid : Option String
  version : Option Nat
deriving DecidableEq

/-- EntityRef::new. -/
def EntityRef.new (t : EntityType) (id : Uuid) : EntityRef :=
  ⟨t, id, none, none⟩

/-- EntityRef::person. -/
def EntityRef.person (id : Uuid) : EntityRef := EntityRef.new .Person id

/-- EntityRef::organization. -/
def EntityRef.organization (id : Uuid) : EntityRef := EntityRef.new .Organization id

/-- EntityRef::with_cid. -/
def EntityRef.with_cid (e : EntityRef) (c : String) : EntityRef := { e with cid := some c }

/-- EntityRef::with_version. -/
def EntityRef.with_version (e : EntityRef) (v : Nat) : EntityRef := { e with version := some v }

/-- The Display implementation for EntityRef (value_objects/mod.rs lines
226-236).  The Rust code writes "type:id" and then, when a cid is present,
appends "@" followed by the byte slice cid[..8]; that slice panics when the
cid holds fewer than 8 bytes.  The panic is modelled as none. -/
def EntityRef.display (e : EntityRef) : Option String :=
  let base := e.entity_type.nats_subject_name ++ ":" ++ toString e.entity_id
  match e.cid with
  | some c =>
      if c.length < 8 then none
      else some (base ++ "@" ++ (c.take 8))
  | none =>
      match e.version with
      | some v => some (base ++ "@v" ++ toString v)
      | none => some base

-- ============================================================================
-- ValidityPeriod (value_objects/mod.rs)
-- ============================================================================

/-- Temporal bounds for a relationship (value_objects/mod.rs). -/
structure ValidityPeriod where
  starts_at : Time
  ends_at : Option Time
  end_reason : Option String
deriving DecidableEq

/-- ValidityPeriod::ongoing. -/
def ValidityPeriod.ongoing (starts_at : Time) : ValidityPeriod :=
  ⟨starts_at, none, none⟩

/-- ValidityPeriod::end (renamed: end is a Lean keyword). -/
def ValidityPeriod.setEnd (p : ValidityPeriod) (ends_at : Time) (reason : String) : ValidityPeriod :=
  { p with ends_at := some ends_at, end_reason := some reason }

/-- ValidityPeriod::has_ended, with the wall clock passed explicitly. -/
def ValidityPeriod.has_ended (p : ValidityPeriod) (now : Time) : Bool :=
  match p.ends_at with
  | some e => decide (now ≥ e)
  | none => false

/-- ValidityPeriod::duration_days (days are the unit of Time). -/
def ValidityPeriod.duration_days (p : ValidityPeriod) : Option Int :=
  p.ends_at.map (fun e => e - p.starts_at)

-- ============================================================================
-- Formality (value_objects/mod.rs)
-- ============================================================================

/-- Formality ladder (value_objects/mod.rs). -/
inductive Formality where
  | Informal
  | SemiFormal
  | Formal
  | Contractual
  | Legal
deriving DecidableEq

/-- Formality::as_f64. -/
def Formality.as_f64 : Formality → ℚ
  | .Informal => 0
  | .SemiFormal => 1/4
  | .Formal => 1/2
  | .Contractual => 3/4
  | .Legal => 1

-- ============================================================================
-- RelationshipCategory (value_objects/mod.rs)
-- ============================================================================

/-- Classification of relationship types (value_objects/mod.rs). -/
inductive RelationshipCategory where
  | Employment
  | Membership
  | Ownership
  | Management
  | Friendship
  | ProfessionalContact
  | Mentorship
  | PartOf
  | Contains
  | DependsOn
  | Implements
  | Precedes
  | Triggers
  | References
  | DerivesFrom
  | Custom (name : String)
deriving DecidableEq

-- ============================================================================
-- Quality space (quality/mod.rs)
-- ============================================================================

/-- Kernel-reducible minimum on rationals (f64::min). -/
def ratMin (a b : ℚ) : ℚ := if a ≤ b then a else b

/-- Kernel-reducible maximum on rationals (f64::max). -/
def ratMax (a b : ℚ) : ℚ := if a ≤ b then b else a

/-- ratMin agrees with the lattice minimum. -/
theorem ratMin_eq_min (a b : ℚ) : ratMin a b = min a b := by
  simp [ratMin, min_def]

/-- ratMax agrees with the lattice maximum. -/
theorem ratMax_eq_max (a b : ℚ) : ratMax a b = max a b := by
  simp [ratMax, max_def]

/-- Clamp a rational into the unit interval (f64::clamp(0.0, 1.0)). -/
def clamp01 (x : ℚ) : ℚ := ratMax 0 (ratMin x 1)

/-- Point in the five-dimensional quality space (quality/mod.rs). -/
structure QualityPoint where
  strength : ℚ
  trust : ℚ
  formality : ℚ
  duration : ℚ
  reciprocity : ℚ
deriving DecidableEq

/-- QualityPoint::new clamps every coordinate into the unit interval. -/
def QualityPoint.new (s t f d r : ℚ) : QualityPoint :=
  ⟨clamp01 s, clamp01 t, clamp01 f, clamp01 d, clamp01 r⟩

/-- Squared Euclidean distance between two quality points; this is the sum
of squares under the sqrt of QualityPoint::distance. -/
def QualityPoint.dist_sq (p q : QualityPoint) : ℚ :=
  (p.strength - q.strength) ^ 2 + (p.trust - q.trust) ^ 2 +
  (p.formality - q.formality) ^ 2 + (p.duration - q.duration) ^ 2 +
  (p.reciprocity - q.reciprocity) ^ 2

/-- QualityPoint::distance (quality/mod.rs lines 79-87): Euclidean distance
in five dimensions. -/
noncomputable def QualityPoint.distance (p q : QualityPoint) : ℝ :=
  Real.sqrt ((QualityPoint.dist_sq p q : ℚ) : ℝ)

/-- Projection to the first three dimensions, used for visualization
(QualityPoint::to_point3). -/
def QualityPoint.to_point3 (p : QualityPoint) : ℚ × ℚ × ℚ :=
  (p.strength, p.trust, p.formality)

/-- Full relationship quality with value-object representations
(quality/mod.rs, RelationshipQuality). -/
structure RelationshipQuality where
  strength : ℚ
  trust : ℚ
  formality : Formality
  duration : ValidityPeriod
  reciprocity : ℚ
deriving DecidableEq

/-- RelationshipQuality::new clamps the three real-valued dimensions. -/
def RelationshipQuality.new (s t : ℚ) (f : Formality) (d : ValidityPeriod) (r : ℚ) :
    RelationshipQuality :=
  ⟨clamp01 s, clamp01 t, f, d, clamp01 r⟩

/-- RelationshipQuality::default. -/
def RelationshipQuality.defaultAt (now : Time) : RelationshipQuality :=
  RelationshipQuality.new (1/2) (1/2) .Formal (ValidityPeriod.ongoing now) (1/2)

/-- RelationshipQuality::to_quality_point: formality via its rung value,
duration normalized by min(days/365, 1) (elapsed days since start for
ongoing periods, total days for ended ones), other dimensions pass
through. -/
def RelationshipQuality.to_quality_point (q : RelationshipQuality) (now : Time) : QualityPoint :=
  let duration_normalized : ℚ :=
    if q.duration.has_ended now then
      match q.duration.duration_days with
      | some days => ratMin ((days : ℚ) / 365) 1
      | none => 0
    else
      ratMin (((now - q.duration.starts_at : Int) : ℚ) / 365) 1
  QualityPoint.new q.strength q.trust q.formality.as_f64 duration_normalized q.reciprocity

-- ============================================================================
-- Knowledge level (external collaborator cim-domain-spaces)
-- ============================================================================

/-- Knowledge level ladder of the conceptual-space collaborator. -/
inductive KnowledgeLevel where
  | Unknown
  | Suspected
  | Known
deriving DecidableEq

-- ============================================================================
-- JSON property values and association-list maps
-- ============================================================================

/-- Model of serde_json::Value restricted to the shapes the aggregate code
produces (strings) plus an opaque constructor for other payloads. -/
inductive JsonValue where
  | str (s : String)
  | opaqueVal (n : Nat)
deriving DecidableEq

/-- HashMap::insert on the association-list model: the new binding replaces
any binding of the same key. -/
def insertKV {α : Type} (k : String) (v : α) (l : List (String × α)) : List (String × α) :=
  (k, v) :: l.filter (fun p => p.1 != k)

-- ============================================================================
-- Error type (lib.rs, RelationshipError)
-- ============================================================================

/-- Domain error taxonomy (lib.rs). -/
inductive RelationshipError where
  | EntityNotFound (s : String)
  | InvalidRelationship (s : String)
  | QualityOutOfRange (s : String)
  | InvalidStateTransition (s : String)
  | InsufficientParticipants
  | CidResolutionFailed (s : String)
  | CrossDomainEventFailed (s : String)
  | SpaceError
deriving DecidableEq

-- ============================================================================
-- Edge events (events/mod.rs)
-- ============================================================================

/-- EdgeCreated event payload (events/mod.rs). -/
structure EdgeCreated where
  event_id : Uuid
  identity : MessageIdentity
  edge_id : RelationshipId
  concept_id : ConceptId
  source : EntityRef
  target : EntityRef
  category : RelationshipCategory
  name : String
  created_by : String
  created_at : Time
deriving DecidableEq

/-- EdgeActivated event payload. -/
structure EdgeActivated where
  event_id : Uuid
  identity : MessageIdentity
  edge_id : RelationshipId
  activated_by : String
  activated_at : Time
deriving DecidableEq

/-- EdgeSuspended event payload. -/
structure EdgeSuspended where
  event_id : Uuid
  identity : MessageIdentity
  edge_id : RelationshipId
  reason : Option String
  suspended_by : String
  suspended_at : Time
deriving DecidableEq

/-- EdgeTerminated event payload. -/
structure EdgeTerminated where
  event_id : Uuid
  identity : MessageIdentity
  edge_id : RelationshipId
  reason : String
  terminated_by : String
  terminated_at : Time
deriving DecidableEq

/-- EdgeRejected event payload. -/
structure EdgeRejected where
  event_id : Uuid
  identity : MessageIdentity
  edge_id : RelationshipId
  reason : Option String
  rejected_by : String
  rejected_at : Time
deriving DecidableEq

/-- EdgeQualityUpdated event payload. -/
structure EdgeQualityUpdated where
  event_id : Uuid
  identity : MessageIdentity
  edge_id : RelationshipId
  old_quality : RelationshipQuality
  new_quality : RelationshipQuality
  reason : String
  updated_at : Time
deriving DecidableEq

/-- EdgeEvidenceAdded event payload. -/
structure EdgeEvidenceAdded where
  event_id : Uuid
  identity : MessageIdentity
  edge_id : RelationshipId
  evidence_cid : String
  evidence_type : String
  added_at : Time
deriving DecidableEq

/-- EdgeKnowledgeProgressed event payload; new_confidence is an arbitrary
f64 carried by the event, with no validation or clamping anywhere. -/
structure EdgeKnowledgeProgressed where
  event_id : Uuid
  identity : MessageIdentity
  edge_id : RelationshipId
  from_level : KnowledgeLevel
  to_level : KnowledgeLevel
  new_confidence : ℚ
  reason : String
  progressed_at : Time
deriving DecidableEq

/-- EdgePropertyUpdated event payload. -/
structure EdgePropertyUpdated where
  event_id : Uuid
  identity : MessageIdentity
  edge_id : RelationshipId
  key : String
  value : JsonValue
  updated_at : Time
deriving DecidableEq

/-- Events for the EdgeConcept aggregate (events/mod.rs, EdgeEvent). -/
inductive EdgeEvent where
  | EdgeCreated (e : EdgeCreated)
  | EdgeActivated (e : EdgeActivated)
  | EdgeSuspended (e : EdgeSuspended)
  | EdgeTerminated (e : EdgeTerminated)
  | EdgeRejected (e : EdgeRejected)
  | QualityUpdated (e : EdgeQualityUpdated)
  | EvidenceAdded (e : EdgeEvidenceAdded)
  | KnowledgeProgressed (e : EdgeKnowledgeProgressed)
  | PropertyUpdated (e : EdgePropertyUpdated)
deriving DecidableEq

-- ============================================================================
-- Edge state machine (aggregates/edge.rs)
-- ============================================================================

/-- Lifecycle state of an edge (aggregates/edge.rs, EdgeState). -/
inductive EdgeState where
  | Proposed
  | Active
  | Suspended
  | Terminated
  | Rejected
deriving DecidableEq

/-- EdgeState::name; the Debug representation printed by transition error
messages coincides with it. -/
def EdgeState.name : EdgeState → String
  | .Proposed => "Proposed"
  | .Active => "Active"
  | .Suspended => "Suspended"
  | .Terminated => "Terminated"
  | .Rejected => "Rejected"

/-- EdgeState::can_transition_to (aggregates/edge.rs lines 63-92). -/
def EdgeState.can_transition_to : EdgeState → EdgeState → Bool
  | .Proposed, .Active => true
  | .Proposed, .Rejected => true
  | .Active, .Suspended => true
  | .Active, .Terminated => true
  | .Suspended, .Active => true
  | .Suspended, .Terminated => true
  | _, _ => false

-- ============================================================================
-- EdgeConcept aggregate (aggregates/edge.rs)
-- ============================================================================

/-- Binary relationship concept (aggregates/edge.rs, EdgeConcept). -/
structure EdgeConcept where
  id : RelationshipId
  concept_id : ConceptId
  source : EntityRef
  target : EntityRef
  category : RelationshipCategory
  name : String
  description : Option String
  quality : RelationshipQuality
  position : ℚ × ℚ × ℚ
  knowledge_level : KnowledgeLevel
  confidence : ℚ
  evidence_cids : List String
  state : EdgeState
  validity : ValidityPeriod
  properties : List (String × JsonValue)
  version : Nat
  created_at : Time
  updated_at : Time
deriving DecidableEq

/-- EdgeConcept::new (aggregates/edge.rs lines 177-207); the freshly minted
RelationshipId and ConceptId and the wall clock are passed explicitly. -/
def EdgeConcept.new (freshId : RelationshipId) (freshConceptId : ConceptId) (now : Time)
    (name : String) (source target : EntityRef) (category : RelationshipCategory) :
    EdgeConcept :=
  let quality := RelationshipQuality.defaultAt now
  { id := freshId
    concept_id := freshConceptId
    source := source
    target := target
    category := category
    name := name
    description := none
    quality := quality
    position := (quality.to_quality_point now).to_point3
    knowledge_level := .Unknown
    confidence := 0
    evidence_cids := []
    state := .Proposed
    validity := ValidityPeriod.ongoing now
    properties := []
    version := 0
    created_at := now
    updated_at := now }

/-- EdgeConcept::transition_to (aggregates/edge.rs lines 237-248); returns
the Result together with the state the mutable receiver is left in. -/
def EdgeConcept.transition_to (e : EdgeConcept) (now : Time) (new_state : EdgeState) :
    Except String Unit × EdgeConcept :=
  if e.state.can_transition_to new_state then
    (.ok (), { e with state := new_state, updated_at := now })
  else
    (.error ("Cannot transition from " ++ e.state.name ++ " to " ++ new_state.name), e)

/-- EdgeConcept::activate. -/
def EdgeConcept.activate (e : EdgeConcept) (now : Time) : Except String Unit × EdgeConcept :=
  e.transition_to now .Active

/-- EdgeConcept::suspend. -/
def EdgeConcept.suspend (e : EdgeConcept) (now : Time) : Except String Unit × EdgeConcept :=
  e.transition_to now .Suspended

/-- EdgeConcept::resume. -/
def EdgeConcept.resume (e : EdgeConcept) (now : Time) : Except String Unit × EdgeConcept :=
  e.transition_to now .Active

/-- EdgeConcept::terminate (aggregates/edge.rs lines 266-270).  Note the
order of operations in the source: the validity period is ended first, and
only then is the state transition attempted. -/
def EdgeConcept.terminate (e : EdgeConcept) (now : Time) (reason : String) :
    Except String Unit × EdgeConcept :=
  let e1 := { e with validity := e.validity.setEnd now reason }
  e1.transition_to now .Terminated

/-- EdgeConcept::reject. -/
def EdgeConcept.reject (e : EdgeConcept) (now : Time) : Except String Unit × EdgeConcept :=
  e.transition_to now .Rejected

/-- EdgeConcept::quality_point. -/
def EdgeConcept.quality_point (e : EdgeConcept) (now : Time) : QualityPoint :=
  e.quality.to_quality_point now

/-- EdgeConcept::similarity (aggregates/edge.rs lines 295-300).  The source
divides the quality-space distance by the literal constant 2.236 (a decimal
approximation of sqrt 5) and clamps the ratio at 1. -/
noncomputable def EdgeConcept.similarity (a b : EdgeConcept) (now : Time) : ℝ :=
  1 - min ((a.quality_point now).distance (b.quality_point now) / (2236 / 1000 : ℝ)) 1

/-- The similarity formula as the specification words it (section 4.7):
distance divided by the exact square root of five. -/
noncomputable def EdgeConcept.similarity_spec (a b : EdgeConcept) (now : Time) : ℝ :=
  1 - min ((a.quality_point now).distance (b.quality_point now) / Real.sqrt 5) 1

/-- EdgeConcept::apply_event_pure (aggregates/edge.rs lines 305-375). -/
def EdgeConcept.apply_event_pure (a : EdgeConcept) (now : Time) (ev : EdgeEvent) :
    Except RelationshipError EdgeConcept :=
  let next := { a with version := a.version + 1, updated_at := now }
  match ev with
  | .EdgeCreated e =>
      .ok { next with
              id := e.edge_id
              concept_id := e.concept_id
              source := e.source
              target := e.target
              category := e.category
              name := e.name
              state := .Proposed
              created_at := e.created_at }
  | .EdgeActivated _ => .ok { next with state := .Active }
  | .EdgeSuspended e =>
      .ok { next with
              state := .Suspended
              properties :=
                match e.reason with
                | some r => insertKV "suspension_reason" (JsonValue.str r) next.properties
                | none => next.properties }
  | .EdgeTerminated e =>
      .ok { next with
              state := .Terminated
              validity := next.validity.setEnd e.terminated_at e.reason }
  | .EdgeRejected e =>
      .ok { next with
              state := .Rejected
              properties :=
                match e.reason with
                | some r => insertKV "rejection_reason" (JsonValue.str r) next.properties
                | none => next.properties }
  | .QualityUpdated e =>
      .ok { next with
              quality := e.new_quality
              position := (e.new_quality.to_quality_point now).to_point3 }
  | .EvidenceAdded e =>
      let cids :=
        if next.evidence_cids.contains e.evidence_cid then next.evidence_cids
        else next.evidence_cids ++ [e.evidence_cid]
      .ok { next with
              evidence_cids := cids
              confidence := ratMin ((cids.length : ℚ) / 10) 1 }
  | .KnowledgeProgressed e =>
      .ok { next with knowledge_level := e.to_level, confidence := e.new_confidence }
  | .PropertyUpdated e =>
      .ok { next with properties := insertKV e.key e.value next.properties }

/-- The event-folding loop of EdgeConcept::from_events (aggregates/edge.rs
lines 419-421): apply each event in order, stopping at the first error. -/
def EdgeConcept.applyAll (e : EdgeConcept) (now : Time) : List EdgeEvent →
    Except RelationshipError EdgeConcept
  | [] => .ok e
  | ev :: rest =>
      match e.apply_event_pure now ev with
      | .ok e1 => e1.applyAll now rest
      | .error err => .error err

/-- The aggregate built from the creating event inside from_events
(aggregates/edge.rs lines 388-410). -/
def EdgeConcept.initFromCreated (e : EdgeCreated) (now : Time) : EdgeConcept :=
  let quality := RelationshipQuality.defaultAt now
  { id := e.edge_id
    concept_id := e.concept_id
    source := e.source
    target := e.target
    category := e.category
    name := e.name
    description := none
    quality := quality
    position := (quality.to_quality_point now).to_point3
    knowledge_level := .Unknown
    confidence := 0
    evidence_cids := []
    state := .Proposed
    validity := ValidityPeriod.ongoing e.created_at
    properties := []
    version := 0
    created_at := e.created_at
    updated_at := e.created_at }

/-- EdgeConcept::from_events (aggregates/edge.rs lines 378-424). -/
def EdgeConcept.from_events (now : Time) : List EdgeEvent →
    Except RelationshipError EdgeConcept
  | [] => .error (.InvalidRelationship "No events provided")
  | first :: rest =>
      match first with
      | .EdgeCreated e => (EdgeConcept.initFromCreated e now).applyAll now rest
      | _ => .error (.InvalidRelationship "First event must be EdgeCreated")

-- ============================================================================
-- Participant roles and incidence matrix (value_objects/mod.rs)
-- ============================================================================

/-- Role of a participant in a hyperedge (value_objects/mod.rs). -/
inductive ParticipantRole where
  | Primary
  | Secondary
  | Observer
  | Facilitator
  | Leader
  | Member
  | Contributor
  | Stakeholder
  | Author
  | Reviewer
  | Approver
  | Custom (name : String)
deriving DecidableEq

/-- Entry in the incidence matrix (value_objects/mod.rs). -/
structure ParticipantEntry where
  entity_ref : EntityRef
  role : ParticipantRole
  weight : ℚ
  joined_at : Time
deriving DecidableEq

/-- Sparse incidence matrix for hyperedge membership; the HashMap keyed by
the EntityRef string form becomes an association list. -/
structure IncidenceMatrix where
  participants : List (String × ParticipantEntry)
deriving DecidableEq

/-- IncidenceMatrix::new. -/
def IncidenceMatrix.empty : IncidenceMatrix := ⟨[]⟩

/-- IncidenceMatrix::add_participant (value_objects/mod.rs lines 499-516):
keys the entry by the Display form of the reference (none when that
computation panics), clamping the weight. -/
def IncidenceMatrix.add_participant (m : IncidenceMatrix) (entity_ref : EntityRef)
    (role : ParticipantRole) (weight : ℚ) (now : Time) : Option IncidenceMatrix :=
  (entity_ref.display).map fun key =>
    ⟨insertKV key ⟨entity_ref, role, clamp01 weight, now⟩ m.participants⟩

/-- IncidenceMatrix::remove_participant: removes the binding of the display
key and returns the removed entry, if any. -/
def IncidenceMatrix.remove_participant (m : IncidenceMatrix) (entity_ref : EntityRef) :
    Option (IncidenceMatrix × Option ParticipantEntry) :=
  (entity_ref.display).map fun key =>
    (⟨m.participants.filter (fun p => p.1 != key)⟩,
     (m.participants.find? (fun p => p.1 == key)).map (·.2))

/-- IncidenceMatrix::participant_count. -/
def IncidenceMatrix.participant_count (m : IncidenceMatrix) : Nat :=
  m.participants.length

-- ============================================================================
-- HyperEdge events (events/mod.rs)
-- ============================================================================

/-- HyperEdgeCreated event payload. -/
structure HyperEdgeCreated where
  event_id : Uuid
  identity : MessageIdentity
  hyperedge_id : RelationshipId
  concept_id : ConceptId
  name : String
  category : RelationshipCategory
  initial_participants : IncidenceMatrix
  created_by : String
  created_at : Time
deriving DecidableEq

/-- HyperEdgeActivated event payload. -/
structure HyperEdgeActivated where
  event_id : Uuid
  identity : MessageIdentity
  hyperedge_id : RelationshipId
  activated_by : String
  activated_at : Time
deriving DecidableEq

/-- ParticipantAdded event payload. -/
structure ParticipantAdded where
  event_id : Uuid
  identity : MessageIdentity
  hyperedge_id : RelationshipId
  participant : EntityRef
  role : ParticipantRole
  weight : ℚ
  added_by : String
  added_at : Time
deriving DecidableEq

/-- ParticipantRemoved event payload. -/
structure ParticipantRemoved where
  event_id : Uuid
  identity : MessageIdentity
  hyperedge_id : RelationshipId
  participant : EntityRef
  reason : String
  removed_by : String
  removed_at : Time
deriving DecidableEq

/-- ParticipantRoleChanged event payload. -/
structure ParticipantRoleChanged where
  event_id : Uuid
  identity : MessageIdentity
  hyperedge_id : RelationshipId
  participant : EntityRef
  old_role : ParticipantRole
  new_role : ParticipantRole
  changed_by : String
  changed_at : Time
deriving DecidableEq

/-- HyperEdgeTerminated event payload. -/
structure HyperEdgeTerminated where
  event_id : Uuid
  identity : MessageIdentity
  hyperedge_id : RelationshipId
  reason : String
  terminated_by : String
  terminated_at : Time
deriving DecidableEq

/-- HyperEdgeQualityUpdated event payload. -/
structure HyperEdgeQualityUpdated where
  event_id : Uuid
  identity : MessageIdentity
  hyperedge_id : RelationshipId
  old_quality : RelationshipQuality
  new_quality : RelationshipQuality
  reason : String
  updated_at : Time
deriving DecidableEq

/-- Events for the HyperEdgeConcept aggregate (events/mod.rs). -/
inductive HyperEdgeEvent where
  | HyperEdgeCreated (e : HyperEdgeCreated)
  | HyperEdgeActivated (e : HyperEdgeActivated)
  | ParticipantAdded (e : ParticipantAdded)
  | ParticipantRemoved (e : ParticipantRemoved)
  | ParticipantRoleChanged (e : ParticipantRoleChanged)
  | HyperEdgeTerminated (e : HyperEdgeTerminated)
  | HyperEdgeQualityUpdated (e : HyperEdgeQualityUpdated)
deriving DecidableEq

-- ============================================================================
-- HyperEdge state machine and aggregate (aggregates/hyperedge.rs)
-- ============================================================================

/-- Lifecycle state of a hyperedge (aggregates/hyperedge.rs). -/
inductive HyperEdgeState where
  | Forming
  | Active
  | Restructuring
  | Dissolved
deriving DecidableEq

/-- HyperEdgeState::name. -/
def HyperEdgeState.name : HyperEdgeState → String
  | .Forming => "Forming"
  | .Active => "Active"
  | .Restructuring => "Restructuring"
  | .Dissolved => "Dissolved"

/-- HyperEdgeState::is_terminal. -/
def HyperEdgeState.is_terminal : HyperEdgeState → Bool
  | .Dissolved => true
  | _ => false

/-- HyperEdgeState::can_transition_to (aggregates/hyperedge.rs lines 63-80). -/
def HyperEdgeState.can_transition_to : HyperEdgeState → HyperEdgeState → Bool
  | .Forming, .Active => true
  | .Forming, .Dissolved => true
  | .Active, .Restructuring => true
  | .Active, .Dissolved => true
  | .Restructuring, .Active => true
  | .Restructuring, .Dissolved => true
  | _, _ => false

/-- N-ary relationship concept (aggregates/hyperedge.rs, HyperEdgeConcept). -/
structure HyperEdgeConcept where
  id : RelationshipId
  concept_id : ConceptId
  category : RelationshipCategory
  name : String
  description : Option String
  participants : IncidenceMatrix
  quality : RelationshipQuality
  position : ℚ × ℚ × ℚ
  knowledge_level : KnowledgeLevel
  confidence : ℚ
  evidence_cids : List String
  state : HyperEdgeState
  validity : ValidityPeriod
  properties : List (String × JsonValue)
  version : Nat
  created_at : Time
  updated_at : Time
deriving DecidableEq

/-- HyperEdgeConcept::new (aggregates/hyperedge.rs lines 151-178). -/
def HyperEdgeConcept.new (freshId : RelationshipId) (freshConceptId : ConceptId)
    (now : Time) (name : String) (category : RelationshipCategory) : HyperEdgeConcept :=
  let quality := RelationshipQuality.defaultAt now
  { id := freshId
    concept_id := freshConceptId
    category := category
    name := name
    description := none
    participants := IncidenceMatrix.empty
    quality := quality
    position := (quality.to_quality_point now).to_point3
    knowledge_level := .Unknown
    confidence := 0
    evidence_cids := []
    state := .Forming
    validity := ValidityPeriod.ongoing now
    properties := []
    version := 0
    created_at := now
    updated_at := now }

/-- HyperEdgeConcept::activate (aggregates/hyperedge.rs lines 219-229):
requires at least two participants, then a legal transition to Active. -/
def HyperEdgeConcept.activate (h : HyperEdgeConcept) (now : Time) :
    Except String Unit × HyperEdgeConcept :=
  if h.participants.participant_count < 2 then
    (.error "HyperEdge requires at least 2 participants", h)
  else if ¬ (h.state.can_transition_to .Active) then
    (.error ("Cannot activate from " ++ h.state.name ++ " state"), h)
  else
    (.ok (), { h with state := .Active, updated_at := now })

/-- HyperEdgeConcept::remove_participant (aggregates/hyperedge.rs lines
196-206): forbidden in the terminal state and when the count would drop
below two; the outer Option models a panic while computing the display
key. -/
def HyperEdgeConcept.remove_participant (h : HyperEdgeConcept) (entity_ref : EntityRef)
    (now : Time) : Option (Except String Unit × HyperEdgeConcept) :=
  if h.state.is_terminal then
    some (.error "Cannot modify dissolved hyperedge", h)
  else if h.participants.participant_count ≤ 2 then
    some (.error "HyperEdge must have at least 2 participants", h)
  else
    (h.participants.remove_participant entity_ref).map fun pr =>
      (.ok (), { h with participants := pr.1, updated_at := now })

/-- HyperEdgeConcept::apply_event_pure (aggregates/hyperedge.rs lines
249-304).  The Rust function always returns Ok; the Option models the
panic that the incidence-matrix key computation can raise, so the result
type collapses to Option. -/
def HyperEdgeConcept.apply_event_pure (h : HyperEdgeConcept) (now : Time)
    (ev : HyperEdgeEvent) : Option HyperEdgeConcept :=
  let next := { h with version := h.version + 1, updated_at := now }
  match ev with
  | .HyperEdgeCreated e =>
      some { next with
               id := e.hyperedge_id
               concept_id := e.concept_id
               name := e.name
               category := e.category
               participants := e.initial_participants
               state := .Forming
               created_at := e.created_at }
  | .HyperEdgeActivated _ => some { next with state := .Active }
  | .ParticipantAdded e =>
      (next.participants.add_participant e.participant e.role e.weight now).map
        fun m => { next with participants := m }
  | .ParticipantRemoved e =>
      (next.participants.remove_participant e.participant).map
        fun pr => { next with participants := pr.1 }
  | .ParticipantRoleChanged e =>
      (next.participants.remove_participant e.participant).bind fun pr =>
        match pr.2 with
        | some entry =>
            (pr.1.add_participant e.participant e.new_role entry.weight now).map
              fun m => { next with participants := m }
        | none => some { next with participants := pr.1 }
  | .HyperEdgeTerminated e =>
      some { next with
               state := .Dissolved
               validity := next.validity.setEnd e.terminated_at e.reason }
  | .HyperEdgeQualityUpdated e =>
      some { next with
               quality := e.new_quality
               position := (e.new_quality.to_quality_point now).to_point3 }

-- ============================================================================
-- Helper definitions and lemmas for the theorems
-- ============================================================================

deriving instance DecidableEq for Except

/-- Whether an Except value is an ok result. -/
def exceptIsOk {ε α : Type} : Except ε α → Bool
  | .ok _ => true
  | .error _ => false

/-- Whether an edge event is the creating event. -/
def EdgeEvent.is_created : EdgeEvent → Bool
  | .EdgeCreated _ => true
  | _ => false

/-- A sample Proposed edge used as a concrete input by several witnesses. -/
def sampleEdge : EdgeConcept :=
  EdgeConcept.new 0 0 0 "Test" (EntityRef.person 1) (EntityRef.organization 2) .Employment

/-- Applying any single event succeeds and bumps the version by one. -/
theorem apply_event_pure_isOk (a : EdgeConcept) (now : Time) (ev : EdgeEvent) :
    ∃ b, a.apply_event_pure now ev = .ok b ∧ b.version = a.version + 1 := by
  cases ev <;> exact ⟨_, rfl, rfl⟩

/-- Folding an event list adds its length to the version. -/
theorem applyAll_version (evs : List EdgeEvent) :
    ∀ (a : EdgeConcept) (now : Time) (b : EdgeConcept),
      a.applyAll now evs = .ok b → b.version = a.version + evs.length := by
  induction evs with
  | nil =>
      intro a now b h
      simp only [EdgeConcept.applyAll] at h
      cases h
      simp
  | cons ev rest ih =>
      intro a now b h
      obtain ⟨e1, he1, hv⟩ := apply_event_pure_isOk a now ev
      unfold EdgeConcept.applyAll at h
      rw [he1] at h
      have hb := ih e1 now b h
      rw [hb, hv]
      simp [List.length_cons]
      omega

-- ============================================================================
-- C3: the edge state machine accepts exactly six transitions
-- ============================================================================

/-- C3: EdgeState::can_transition_to accepts exactly the six transitions
Proposed to Active, Proposed to Rejected, Active to Suspended, Active to
Terminated, Suspended to Active, Suspended to Terminated; every other
ordered pair, in particular everything out of Terminated or Rejected, is
refused. -/
theorem edge_transition_table_exact :
    ∀ s t : EdgeState, EdgeState.can_transition_to s t = true ↔
      ((s = .Proposed ∧ t = .Active) ∨ (s = .Proposed ∧ t = .Rejected) ∨
       (s = .Active ∧ t = .Suspended) ∨ (s = .Active ∧ t = .Terminated) ∨
       (s = .Suspended ∧ t = .Active) ∨ (s = .Suspended ∧ t = .Terminated)) := by
  intro s t
  cases s <;> cases t <;> decide

-- ============================================================================
-- C4: from_events error handling and fold structure
-- ============================================================================

/-- C4: EdgeConcept::from_events rejects an empty event list with an
InvalidRelationship error, rejects a list whose first event is not
EdgeCreated with an InvalidRelationship error, and otherwise builds the
initial aggregate from the creating event and folds the remaining events
left to right with apply_event_pure. -/
theorem from_events_shape :
    (∀ now : Time,
       EdgeConcept.from_events now [] =
         .error (.InvalidRelationship "No events provided")) ∧
    (∀ (now : Time) (ev : EdgeEvent) (rest : List EdgeEvent),
       ev.is_created = false →
       EdgeConcept.from_events now (ev :: rest) =
         .error (.InvalidRelationship "First event must be EdgeCreated")) ∧
    (∀ (now : Time) (e : EdgeCreated) (rest : List EdgeEvent),
       EdgeConcept.from_events now (.EdgeCreated e :: rest) =
         (EdgeConcept.initFromCreated e now).applyAll now rest) := by
  refine ⟨fun now => rfl, ?_, fun now e rest => rfl⟩
  intro now ev rest h
  cases ev <;> simp_all [EdgeConcept.from_events, EdgeEvent.is_created]

/-- Witness for C4: concrete instances of the three cases; the non-created
first event is an EdgeActivated event. -/
theorem from_events_shape_witness :
    EdgeConcept.from_events 0 [] =
      .error (.InvalidRelationship "No events provided") ∧
    EdgeConcept.from_events 0 [.EdgeActivated ⟨0, 0, 0, "a", 0⟩] =
      .error (.InvalidRelationship "First event must be EdgeCreated") :=
  ⟨from_events_shape.1 0,
   from_events_shape.2.1 0 (.EdgeActivated ⟨0, 0, 0, "a", 0⟩) [] rfl⟩

-- ============================================================================
-- C5: version equals number of events minus one
-- ============================================================================

/-- C5: for every event sequence accepted by EdgeConcept::from_events the
resulting version is the number of events minus one: the creating event
sets version 0 and every further applied event adds exactly one. -/
theorem from_events_version (now : Time) (evs : List EdgeEvent) (e : EdgeConcept)
    (h : EdgeConcept.from_events now evs = .ok e) :
    e.version = evs.length - 1 := by
  match evs with
  | [] => simp [EdgeConcept.from_events] at h
  | first :: rest =>
      cases first with
      | EdgeCreated c =>
          unfold EdgeConcept.from_events at h
          have hv := applyAll_version rest (EdgeConcept.initFromCreated c now) now e h
          simp [EdgeConcept.initFromCreated] at hv
          simp [hv]
      | EdgeActivated e0 => simp [EdgeConcept.from_events] at h
      | EdgeSuspended e0 => simp [EdgeConcept.from_events] at h
      | EdgeTerminated e0 => simp [EdgeConcept.from_events] at h
      | EdgeRejected e0 => simp [EdgeConcept.from_events] at h
      | QualityUpdated e0 => simp [EdgeConcept.from_events] at h
      | EvidenceAdded e0 => simp [EdgeConcept.from_events] at h
      | KnowledgeProgressed e0 => simp [EdgeConcept.from_events] at h
      | PropertyUpdated e0 => simp [EdgeConcept.from_events] at h

/-- Concrete two-event history for the C5 witness. -/
def c5evs : List EdgeEvent :=
  [.EdgeCreated ⟨0, 0, 7, 8, EntityRef.person 1, EntityRef.organization 2,
                 .Employment, "Job", "tester", 0⟩,
   .EdgeActivated ⟨1, 0, 7, "tester", 1⟩]

/-- Witness for C5: the concrete two-event history is accepted and ends at
version one. -/
theorem from_events_version_witness :
    ∃ e, EdgeConcept.from_events 0 c5evs = .ok e ∧ e.version = c5evs.length - 1 := by
  match hh : EdgeConcept.from_events 0 c5evs with
  | .ok e => exact ⟨e, rfl, from_events_version 0 c5evs e hh⟩
  | .error err =>
      have hok : exceptIsOk (EdgeConcept.from_events 0 c5evs) = true := by decide
      rw [hh] at hok
      simp [exceptIsOk] at hok

-- ============================================================================
-- C1: reflexive edges are not rejected anywhere in the aggregate layer
-- ============================================================================

/-- Creating event whose source and target are the same entity. -/
def c1created : EdgeCreated :=
  ⟨0, 0, 3, 4, EntityRef.person 1, EntityRef.person 1, .Friendship, "Self", "tester", 0⟩

/-- Counterexample to C1: replaying a creating event whose source equals
its target succeeds and yields an aggregate with source equal to target;
no error is produced. -/
theorem edge_reflexive_accepted_counterexample :
    ∃ e, EdgeConcept.from_events 0 [.EdgeCreated c1created] = .ok e ∧
      e.source = e.target :=
  ⟨_, rfl, rfl⟩

/-- C1 amended: neither EdgeConcept::new nor from_events checks source
against target; both construct the aggregate with exactly the endpoints
they were given, reflexive or not. -/
theorem edge_construction_preserves_endpoints :
    (∀ (fid : RelationshipId) (fcid : ConceptId) (now : Time) (nm : String)
       (src tgt : EntityRef) (cat : RelationshipCategory),
       (EdgeConcept.new fid fcid now nm src tgt cat).source = src ∧
       (EdgeConcept.new fid fcid now nm src tgt cat).target = tgt) ∧
    (∀ (now : Time) (c : EdgeCreated), ∃ e,
       EdgeConcept.from_events now [.EdgeCreated c] = .ok e ∧
       e.source = c.source ∧ e.target = c.target) :=
  ⟨fun _ _ _ _ _ _ _ => ⟨rfl, rfl⟩, fun _ _ => ⟨_, rfl, rfl, rfl⟩⟩

-- ============================================================================
-- C2: terminate mutates the validity period before validating the move
-- ============================================================================

/-- C2: calling terminate on a Proposed edge fails with the transition
error and leaves the state Proposed, but the validity period has already
been given an end date and an end reason, because the source ends the
validity before consulting the transition table. -/
theorem terminate_from_proposed_mutates_validity :
    (sampleEdge.terminate 5 "Invalid").1 =
      .error "Cannot transition from Proposed to Terminated" ∧
    (sampleEdge.terminate 5 "Invalid").2.state = EdgeState.Proposed ∧
    (sampleEdge.terminate 5 "Invalid").2.validity.ends_at = some 5 ∧
    (sampleEdge.terminate 5 "Invalid").2.validity.end_reason = some "Invalid" := by
  refine ⟨rfl, rfl, rfl, rfl⟩

-- ============================================================================
-- C10: the EntityRef Display implementation panics on short cids
-- ============================================================================

/-- C10: the Display form of an EntityRef is not total: with a cid shorter
than eight bytes the byte slice cid[..8] panics (modelled as none), while
cid-free references format fine. -/
theorem entity_ref_display_short_cid_panics :
    EntityRef.display ((EntityRef.person 42).with_cid "abc") = none ∧
    EntityRef.display (EntityRef.person 42) = some "person:42" ∧
    EntityRef.display ((EntityRef.person 42).with_cid "bafybeigdyrzt5abcdef") =
      some "person:42@bafybeig" := by
  refine ⟨rfl, by decide, by decide⟩

-- ============================================================================
-- C8: the two-participant minimum and event replay
-- ============================================================================

/-- First participant for the C8 scenario. -/
def c8p1 : EntityRef := EntityRef.person 1

/-- Second participant for the C8 scenario. -/
def c8p2 : EntityRef := EntityRef.person 2

/-- Incidence matrix with exactly the two participants, keyed as the
Display form of the references. -/
def c8matrix : IncidenceMatrix :=
  ⟨[("person:1", ⟨c8p1, .Member, 1, 0⟩), ("person:2", ⟨c8p2, .Member, 1, 0⟩)]⟩

/-- Fresh hyperedge used by the C8 scenario. -/
def c8h0 : HyperEdgeConcept := HyperEdgeConcept.new 0 0 0 "Team" .Membership

/-- Replay of HyperEdgeCreated (two participants), HyperEdgeActivated,
then ParticipantRemoved, through apply_event_pure. -/
def c8chain : Option HyperEdgeConcept :=
  (c8h0.apply_event_pure 1 (.HyperEdgeCreated ⟨0, 0, 0, 0, "Team", .Membership, c8matrix, "t", 0⟩)).bind fun h1 =>
  (h1.apply_event_pure 2 (.HyperEdgeActivated ⟨1, 0, 0, "t", 2⟩)).bind fun h2 =>
  h2.apply_event_pure 3 (.ParticipantRemoved ⟨2, 0, 0, c8p1, "left", "t", 3⟩)

/-- Counterexample to C8: HyperEdgeConcept::apply_event_pure applies
ParticipantRemoved without any minimum-count guard, so replaying events
yields an Active hyperedge with a single participant. -/
theorem hyperedge_event_replay_breaks_min_participants :
    (c8chain.map fun h => (h.state, h.participants.participant_count)) =
      some (HyperEdgeState.Active, 1) := by
  decide

/-- C8 amended: the command-level methods do enforce the minimum — activate
with fewer than two participants fails with the insufficient-participants
error and leaves the aggregate untouched, and remove_participant on a
non-terminal aggregate holding at most two participants fails and leaves
the aggregate untouched — but apply_event_pure performs no such check, so
the invariant does not extend to event-rebuilt states. -/
theorem hyperedge_min_participants_guards :
    (∀ (h : HyperEdgeConcept) (now : Time),
       h.participants.participant_count < 2 →
       h.activate now = (.error "HyperEdge requires at least 2 participants", h)) ∧
    (∀ (h : HyperEdgeConcept) (r : EntityRef) (now : Time),
       h.state.is_terminal = false →
       h.participants.participant_count ≤ 2 →
       h.remove_participant r now =
         some (.error "HyperEdge must have at least 2 participants", h)) := by
  constructor
  · intro h now hc
    simp [HyperEdgeConcept.activate, hc]
  · intro h r now ht hc
    simp [HyperEdgeConcept.remove_participant, ht, hc]

/-- Hyperedge holding exactly two participants in the Active state, for
the C8 witness. -/
def c8active2 : HyperEdgeConcept :=
  { c8h0 with participants := c8matrix, state := .Active }

/-- Witness for C8 amended: the guards fire on concrete aggregates with
zero and with two participants. -/
theorem hyperedge_min_participants_guards_witness :
    c8h0.activate 1 = (.error "HyperEdge requires at least 2 participants", c8h0) ∧
    c8active2.remove_participant c8p1 7 =
      some (.error "HyperEdge must have at least 2 participants", c8active2) :=
  ⟨hyperedge_min_participants_guards.1 c8h0 1 (by decide),
   hyperedge_min_participants_guards.2 c8active2 c8p1 7 (by decide) (by decide)⟩

-- ============================================================================
-- C7: applying the same evidence event twice
-- ============================================================================

/-- Evidence event reused for the C7 scenario. -/
def c7ev : EdgeEvidenceAdded := ⟨0, 0, 0, "cid-1", "document", 0⟩

/-- Result of applying the evidence event once to the sample edge. -/
def c7once : Except RelationshipError EdgeConcept :=
  sampleEdge.apply_event_pure 1 (.EvidenceAdded c7ev)

/-- Result of applying the same evidence event a second time. -/
def c7twice : Except RelationshipError EdgeConcept :=
  c7once.bind fun b => b.apply_event_pure 2 (.EvidenceAdded c7ev)

/-- Counterexample to C7: the aggregate after two applications of the same
EdgeEvidenceAdded differs from the aggregate after one, because every
apply_event_pure call increments the version (and refreshes updated_at). -/
theorem evidence_twice_differs_counterexample : c7twice ≠ c7once := by
  with_unfolding_all decide

/-- C7 amended: the second application of the same EdgeEvidenceAdded does
not fail and is a no-op on the evidence list, the confidence and every
other field except the version, which increments by one, and updated_at,
which is refreshed to the application clock. -/
theorem evidence_second_application_only_bumps_version :
    ∀ (a : EdgeConcept) (n1 n2 : Time) (ev : EdgeEvidenceAdded) (b : EdgeConcept),
      a.apply_event_pure n1 (.EvidenceAdded ev) = .ok b →
      b.apply_event_pure n2 (.EvidenceAdded ev) =
        .ok { b with version := b.version + 1, updated_at := n2 } := by
  intro a n1 n2 ev b h
  simp only [EdgeConcept.apply_event_pure, Except.ok.injEq] at h
  split at h
  case isTrue hc =>
    subst h
    have hm : ev.evidence_cid ∈ a.evidence_cids := by simpa using hc
    simp only [EdgeConcept.apply_event_pure, Except.ok.injEq]
    simp [hm]
  case isFalse hc =>
    subst h
    simp only [EdgeConcept.apply_event_pure, Except.ok.injEq]
    simp

/-- Witness for C7 amended: the concrete first application on the sample
edge satisfies the hypothesis and the second application only bumps the
version and the clock. -/
theorem evidence_second_application_only_bumps_version_witness :
    ∃ b, sampleEdge.apply_event_pure 1 (.EvidenceAdded c7ev) = .ok b ∧
      b.apply_event_pure 2 (.EvidenceAdded c7ev) =
        .ok { b with version := b.version + 1, updated_at := 2 } := by
  match hh : sampleEdge.apply_event_pure 1 (.EvidenceAdded c7ev) with
  | .ok b =>
      exact ⟨b, rfl, evidence_second_application_only_bumps_version sampleEdge 1 2 c7ev b hh⟩
  | .error err =>
      have hok : exceptIsOk (sampleEdge.apply_event_pure 1 (.EvidenceAdded c7ev)) = true := by
        decide
      rw [hh] at hok
      simp [exceptIsOk] at hok

-- ============================================================================
-- C6: confidence bounds and the evidence formula
-- ============================================================================

/-- Bounded-confidence check on a single event: a KnowledgeProgressed event
must carry a new_confidence inside the unit interval; every other event is
unconstrained. -/
def EdgeEvent.confidence_okb : EdgeEvent → Bool
  | .KnowledgeProgressed e => decide (0 ≤ e.new_confidence ∧ e.new_confidence ≤ 1)
  | _ => true

/-- One event application preserves confidence bounds when the event is
confidence-bounded. -/
theorem apply_confidence_inv (a : EdgeConcept) (now : Time) (ev : EdgeEvent) (b : EdgeConcept)
    (hok : ev.confidence_okb = true) (ha0 : 0 ≤ a.confidence) (ha1 : a.confidence ≤ 1)
    (h : a.apply_event_pure now ev = .ok b) : 0 ≤ b.confidence ∧ b.confidence ≤ 1 := by
  cases ev with
  | EvidenceAdded e =>
      simp only [EdgeConcept.apply_event_pure, Except.ok.injEq] at h
      subst h
      constructor
      · simp only [ratMin_eq_min]
        exact le_min (by positivity) (by norm_num)
      · simp only [ratMin_eq_min]
        exact min_le_right _ _
  | KnowledgeProgressed e =>
      simp only [EdgeEvent.confidence_okb, decide_eq_true_eq] at hok
      simp only [EdgeConcept.apply_event_pure, Except.ok.injEq] at h
      subst h
      simpa using hok
  | EdgeCreated e =>
      simp only [EdgeConcept.apply_event_pure, Except.ok.injEq] at h
      subst h
      exact ⟨ha0, ha1⟩
  | EdgeActivated e =>
      simp only [EdgeConcept.apply_event_pure, Except.ok.injEq] at h
      subst h
      exact ⟨ha0, ha1⟩
  | EdgeSuspended e =>
      simp only [EdgeConcept.apply_event_pure, Except.ok.injEq] at h
      subst h
      exact ⟨ha0, ha1⟩
  | EdgeTerminated e =>
      simp only [EdgeConcept.apply_event_pure, Except.ok.injEq] at h
      subst h
      exact ⟨ha0, ha1⟩
  | EdgeRejected e =>
      simp only [EdgeConcept.apply_event_pure, Except.ok.injEq] at h
      subst h
      exact ⟨ha0, ha1⟩
  | QualityUpdated e =>
      simp only [EdgeConcept.apply_event_pure, Except.ok.injEq] at h
      subst h
      exact ⟨ha0, ha1⟩
  | PropertyUpdated e =>
      simp only [EdgeConcept.apply_event_pure, Except.ok.injEq] at h
      subst h
      exact ⟨ha0, ha1⟩

/-- Folding bounded events preserves confidence bounds. -/
theorem applyAll_confidence_inv (evs : List EdgeEvent) :
    ∀ (a : EdgeConcept) (now : Time) (b : EdgeConcept),
      (∀ ev ∈ evs, ev.confidence_okb = true) →
      0 ≤ a.confidence → a.confidence ≤ 1 →
      a.applyAll now evs = .ok b → 0 ≤ b.confidence ∧ b.confidence ≤ 1 := by
  induction evs with
  | nil =>
      intro a now b _ h0 h1 h
      simp only [EdgeConcept.applyAll] at h
      cases h
      exact ⟨h0, h1⟩
  | cons ev rest ih =>
      intro a now b hoks h0 h1 h
      obtain ⟨e1, he1, -⟩ := apply_event_pure_isOk a now ev
      unfold EdgeConcept.applyAll at h
      rw [he1] at h
      obtain ⟨g0, g1⟩ := apply_confidence_inv a now ev e1 (hoks ev (by simp)) h0 h1 he1
      exact ih e1 now b (fun e he => hoks e (by simp [he])) g0 g1 h

/-- C6 amended: for every accepted event sequence whose KnowledgeProgressed
events carry a new_confidence inside the unit interval, the rebuilt
confidence lies in the unit interval; and immediately after an
EvidenceAdded event the confidence equals min(evidence count / 10, 1).
Without that bound on KnowledgeProgressed events the unit-interval claim
fails, since apply_event_pure copies new_confidence unvalidated. -/
theorem edge_confidence_spec :
    (∀ (now : Time) (evs : List EdgeEvent) (e : EdgeConcept),
       (∀ ev ∈ evs, ev.confidence_okb = true) →
       EdgeConcept.from_events now evs = .ok e →
       0 ≤ e.confidence ∧ e.confidence ≤ 1) ∧
    (∀ (a : EdgeConcept) (now : Time) (ev : EdgeEvidenceAdded) (b : EdgeConcept),
       a.apply_event_pure now (.EvidenceAdded ev) = .ok b →
       b.confidence = ratMin ((b.evidence_cids.length : ℚ) / 10) 1) := by
  constructor
  · intro now evs e hoks h
    match evs with
    | [] => simp [EdgeConcept.from_events] at h
    | first :: rest =>
        cases first with
        | EdgeCreated c =>
            unfold EdgeConcept.from_events at h
            refine applyAll_confidence_inv rest (EdgeConcept.initFromCreated c now) now e
              (fun ev he => hoks ev (by simp [he])) ?_ ?_ h
            · simp [EdgeConcept.initFromCreated]
            · simp [EdgeConcept.initFromCreated]
        | EdgeActivated e0 => simp [EdgeConcept.from_events] at h
        | EdgeSuspended e0 => simp [EdgeConcept.from_events] at h
        | EdgeTerminated e0 => simp [EdgeConcept.from_events] at h
        | EdgeRejected e0 => simp [EdgeConcept.from_events] at h
        | QualityUpdated e0 => simp [EdgeConcept.from_events] at h
        | EvidenceAdded e0 => simp [EdgeConcept.from_events] at h
        | KnowledgeProgressed e0 => simp [EdgeConcept.from_events] at h
        | PropertyUpdated e0 => simp [EdgeConcept.from_events] at h
  · intro a now ev b h
    simp only [EdgeConcept.apply_event_pure, Except.ok.injEq] at h
    subst h
    rfl

/-- Event history whose KnowledgeProgressed event carries confidence 2. -/
def c6evs : List EdgeEvent :=
  [.EdgeCreated ⟨0, 0, 7, 8, EntityRef.person 1, EntityRef.organization 2,
                 .Employment, "Job", "t", 0⟩,
   .KnowledgeProgressed ⟨1, 0, 7, .Unknown, .Known, 2, "boost", 1⟩]

/-- Counterexample to C6: a KnowledgeProgressed event carrying confidence 2
is accepted and leaves the aggregate with confidence 2, outside the unit
interval. -/
theorem edge_confidence_out_of_range_counterexample :
    ∃ e, EdgeConcept.from_events 0 c6evs = .ok e ∧ e.confidence = 2 ∧ 1 < e.confidence := by
  refine ⟨_, rfl, rfl, by norm_num⟩

/-- Bounded event history for the C6 witness. -/
def c6goodEvs : List EdgeEvent :=
  [.EdgeCreated ⟨0, 0, 7, 8, EntityRef.person 1, EntityRef.organization 2,
                 .Employment, "Job", "t", 0⟩,
   .EvidenceAdded ⟨1, 0, 7, "cid-1", "doc", 1⟩]

/-- Witness for C6 amended: concrete bounded history and concrete evidence
application satisfying the hypotheses. -/
theorem edge_confidence_spec_witness :
    (∃ e, EdgeConcept.from_events 0 c6goodEvs = .ok e ∧
       0 ≤ e.confidence ∧ e.confidence ≤ 1) ∧
    (∃ b, sampleEdge.apply_event_pure 1 (.EvidenceAdded ⟨1, 0, 0, "cid-1", "doc", 1⟩) = .ok b ∧
       b.confidence = ratMin ((b.evidence_cids.length : ℚ) / 10) 1) := by
  constructor
  · match hh : EdgeConcept.from_events 0 c6goodEvs with
    | .ok e => exact ⟨e, rfl, edge_confidence_spec.1 0 c6goodEvs e (by decide) hh⟩
    | .error err =>
        have hok : exceptIsOk (EdgeConcept.from_events 0 c6goodEvs) = true := by decide
        rw [hh] at hok
        simp [exceptIsOk] at hok
  · match hh : sampleEdge.apply_event_pure 1 (.EvidenceAdded ⟨1, 0, 0, "cid-1", "doc", 1⟩) with
    | .ok b => exact ⟨b, rfl, edge_confidence_spec.2 sampleEdge 1 ⟨1, 0, 0, "cid-1", "doc", 1⟩ b hh⟩
    | .error err =>
        have hok : exceptIsOk
            (sampleEdge.apply_event_pure 1 (.EvidenceAdded ⟨1, 0, 0, "cid-1", "doc", 1⟩)) = true := by
          decide
        rw [hh] at hok
        simp [exceptIsOk] at hok

-- ============================================================================
-- C9: the similarity measure
-- ============================================================================

/-- Quality profile at the origin of the strength axis for the C9
counterexample. -/
def c9qA : RelationshipQuality := ⟨0, 1/2, .Formal, ⟨0, none, none⟩, 1/2⟩

/-- Quality profile one strength unit away for the C9 counterexample. -/
def c9qB : RelationshipQuality := ⟨1, 1/2, .Formal, ⟨0, none, none⟩, 1/2⟩

/-- Edge carrying the first C9 quality profile. -/
def c9A : EdgeConcept := { sampleEdge with quality := c9qA }

/-- Edge carrying the second C9 quality profile. -/
def c9B : EdgeConcept := { sampleEdge with quality := c9qB }

/-- Counterexample to C9: on two edges at quality-space distance 1 the
source formula 1 - min(d / 2.236, 1) differs from the claimed formula
1 - min(d / sqrt 5, 1), because 2.236 is rational while sqrt 5 is not. -/
theorem similarity_constant_differs_from_spec_counterexample :
    EdgeConcept.similarity c9A c9B 0 ≠ EdgeConcept.similarity_spec c9A c9B 0 := by
  have hd : QualityPoint.dist_sq (c9A.quality_point 0) (c9B.quality_point 0) = 1 := by
    with_unfolding_all decide
  have hdist : (c9A.quality_point 0).distance (c9B.quality_point 0) = 1 := by
    unfold QualityPoint.distance
    rw [hd]
    norm_num
  unfold EdgeConcept.similarity EdgeConcept.similarity_spec
  rw [hdist]
  intro heq
  have h5 : (1:ℝ) < Real.sqrt 5 := by
    have h := Real.sqrt_lt_sqrt (by norm_num : (0:ℝ) ≤ 1) (by norm_num : (1:ℝ) < 5)
    rwa [Real.sqrt_one] at h
  have h5pos : (0:ℝ) < Real.sqrt 5 := lt_trans one_pos h5
  have hmin1 : min ((1:ℝ) / (2236 / 1000)) 1 = 1 / (2236 / 1000) :=
    min_eq_left (by norm_num)
  have hmin2 : min ((1:ℝ) / Real.sqrt 5) 1 = 1 / Real.sqrt 5 :=
    min_eq_left ((div_le_one h5pos).mpr h5.le)
  rw [hmin1, hmin2] at heq
  have hxy : (1:ℝ) / (2236 / 1000) = 1 / Real.sqrt 5 := by linarith
  rw [one_div, one_div] at hxy
  have hsq : (2236 / 1000 : ℝ) = Real.sqrt 5 := inv_inj.mp hxy
  have hirr : Irrational (Real.sqrt 5) := by
    have hcast : ((5:ℕ):ℝ) = 5 := by norm_num
    rw [← hcast]
    exact (by norm_num : Nat.Prime 5).irrational_sqrt
  exact hirr ⟨2236 / 1000, by push_cast; linarith [hsq]⟩

/-- C9 amended: the source similarity divides by the rational constant
2.236 rather than by sqrt 5; with that divisor the measure still lies in
the unit interval, equals 1 on identical quality points, and equals 0 when
the quality points are at the antipodal distance sqrt 5. -/
theorem similarity_bounds_and_extremes :
    (∀ (a b : EdgeConcept) (now : Time),
       0 ≤ EdgeConcept.similarity a b now ∧ EdgeConcept.similarity a b now ≤ 1) ∧
    (∀ (a : EdgeConcept) (now : Time), EdgeConcept.similarity a a now = 1) ∧
    (∀ (a b : EdgeConcept) (now : Time),
       (a.quality_point now).distance (b.quality_point now) = Real.sqrt 5 →
       EdgeConcept.similarity a b now = 0) := by
  refine ⟨?_, ?_, ?_⟩
  · intro a b now
    unfold EdgeConcept.similarity
    have hx : (0:ℝ) ≤ (a.quality_point now).distance (b.quality_point now) / (2236 / 1000) :=
      div_nonneg (Real.sqrt_nonneg _) (by norm_num)
    constructor
    · have := min_le_right ((a.quality_point now).distance (b.quality_point now) / (2236 / 1000)) (1:ℝ)
      linarith
    · have := le_min hx (by norm_num : (0:ℝ) ≤ 1)
      linarith
  · intro a now
    have h0 : QualityPoint.dist_sq (a.quality_point now) (a.quality_point now) = 0 := by
      simp [QualityPoint.dist_sq]
    unfold EdgeConcept.similarity QualityPoint.distance
    rw [h0]
    simp [Real.sqrt_zero]
  · intro a b now hd
    unfold EdgeConcept.similarity
    rw [hd]
    have hle : (2236 / 1000 : ℝ) ≤ Real.sqrt 5 := by
      have h1 : (2236 / 1000 : ℝ) = Real.sqrt ((2236 / 1000) ^ 2) :=
        (Real.sqrt_sq (by norm_num)).symm
      rw [h1]
      exact Real.sqrt_le_sqrt (by norm_num)
    have hmin : min (Real.sqrt 5 / (2236 / 1000)) 1 = 1 :=
      min_eq_right ((le_div_iff₀ (by norm_num)).mpr (by simpa using hle))
    rw [hmin]
    ring

/-- Quality profile at the quality-space origin for the C9 witness. -/
def c9qA2 : RelationshipQuality := ⟨0, 0, .Informal, ⟨1000, none, none⟩, 0⟩

/-- Quality profile at the opposite corner of the quality cube: the period
ended after exactly 365 days, so the duration coordinate is 1. -/
def c9qB2 : RelationshipQuality := ⟨1, 1, .Legal, ⟨0, some 365, none⟩, 1⟩

/-- Edge at the quality-space origin for the C9 witness. -/
def c9A2 : EdgeConcept := { sampleEdge with quality := c9qA2 }

/-- Edge at the opposite quality corner for the C9 witness. -/
def c9B2 : EdgeConcept := { sampleEdge with quality := c9qB2 }

/-- Witness for C9 amended: two concrete edges at antipodal quality points
(distance sqrt 5) have similarity exactly 0. -/
theorem similarity_bounds_and_extremes_witness :
    EdgeConcept.similarity c9A2 c9B2 1000 = 0 :=
  similarity_bounds_and_extremes.2.2 c9A2 c9B2 1000 (by
    have h5 : QualityPoint.dist_sq (c9A2.quality_point 1000) (c9B2.quality_point 1000) = 5 := by
      with_unfolding_all decide
    unfold QualityPoint.distance
    rw [h5]
    norm_num)
